import Mathlib

/-!
Shallow embedding of the view-orchestration layer of the
electron-gsuite-proton-client repository.

JS numbers are modelled as integers where the code only ever handles
integral values (unread counts) and as rationals where fractional values
occur (zoom factors); a possibly-nullish number is an Option (none
standing for null or undefined).  JS objects used as
string-keyed maps are modelled as association lists that preserve key
insertion order, matching JS object key-order semantics.  Outbound
effects (OS badge updates, messages to the menu view, network fetches,
console logging, persistence writes) are collected as explicit event
lists.
-/

/-- One entry of the static VIEW_CONFIG object in main.js: id, optional
content url, preload script name, and the isContent flag. -/
structure ViewConfig where
  id : String
  url : Option String
  preload : String
  isContent : Bool
  deriving DecidableEq

/-- The VIEW_CONFIG object of main.js, in its declaration order. -/
def VIEW_CONFIG : List ViewConfig :=
  [⟨"menu", none, "preload.js", false⟩,
   ⟨"aistudio", some "https://aistudio.google.com", "preload-web.js", true⟩,
   ⟨"gmail", some "https://mail.google.com/mail/u/0/", "preload-web.js", true⟩,
   ⟨"calendar", some "https://calendar.google.com/calendar/u/0/r", "preload-web.js", true⟩,
   ⟨"chat", some "https://mail.google.com/chat/u/0/#chat/home", "preload-web.js", true⟩,
   ⟨"drive", some "https://drive.google.com/drive/u/0/my-drive", "preload-web.js", true⟩,
   ⟨"tasks", some "https://tasks.google.com/tasks", "preload-web.js", true⟩]

/-- VALID_PRELOADS of main.js: the set of preload names appearing in the
configuration (membership in the JS Set corresponds to list membership). -/
def VALID_PRELOADS : List String := VIEW_CONFIG.map (fun c => c.preload)

/-- VALID_VIEW_IDS of main.js (current variant): the ids of ALL config
entries, the internal menu view included. -/
def VALID_VIEW_IDS : List String := VIEW_CONFIG.map (fun c => c.id)

/-- True when the id names a content (third-party session) entry of
VIEW_CONFIG, as opposed to the internal menu view or an unknown id. -/
def isContentSessionId (id : String) : Bool :=
  ((VIEW_CONFIG.find? (fun c => c.id == id)).map (fun c => c.isContent)).getD false

/-- Outbound effects of the orchestrator: OS badge updates, messages sent
to the menu view over named IPC channels, network fetches, console
logging and persistence writes. -/
inductive Msg where
  | setBadgeCount (total : ℤ)
  | menuBadges (counts : List (String × ℤ))
  | menuIcon (source : String) (dataUrl : String)
  | setActiveTab (tabId : String)
  | setLoadingState (serviceId : String) (loading : Bool)
  | loadURL (viewId : String) (url : String)
  | blurView (viewId : String)
  | raiseView (viewId : String)
  | focusView (viewId : String)
  | netFetch (url : String)
  | logWarn (message : String)
  | logError (message : String)
  | storeSetLastTab (tabId : String)
  | storeSetZoomLevels (levels : List (String × ℚ))
  deriving DecidableEq

/-- The mutable state of the MainWindow orchestrator object: created view
ids (insertion order), the active view id, the unreadCounts map, the set
of lazily loaded views, the enabled-services map and the persisted
lastTab key. -/
structure MainState where
  views : List String
  activeViewId : Option String
  unreadCounts : List (String × ℤ)
  loadedViews : List String
  enabledServices : String → Bool
  storeLastTab : Option String

/-- State of the MainWindow constructor before _createViews runs: empty
views, empty counts, no active view. -/
def initialState (enabled : String → Bool) : MainState :=
  { views := [], activeViewId := none, unreadCounts := [], loadedViews := [],
    enabledServices := enabled, storeLastTab := none }

/-- The _sendToMenu helper: delivers the message only when the menu view
exists. -/
def sendToMenu (s : MainState) (m : Msg) : List Msg :=
  if s.views.contains "menu" then [m] else []

/-- Membership test for a key of a JS-object-as-map. -/
def hasCountKey {α : Type} (m : List (String × α)) (k : String) : Bool :=
  m.any (fun p => p.1 == k)

/-- Assignment to an existing key of a JS-object-as-map: the key keeps
its position, other keys are untouched. -/
def setCount {α : Type} (m : List (String × α)) (k : String) (v : α) : List (String × α) :=
  m.map (fun p => if p.1 == k then (p.1, v) else p)

/-- Reads the value stored for a key, if present. -/
def lookupCount {α : Type} (m : List (String × α)) (k : String) : Option α :=
  (m.find? (fun p => p.1 == k)).map (fun p => p.2)

/-- The _updateUnreadCount method of main.js: rejects sources outside
VALID_VIEW_IDS, replaces a nullish count by 0 (the JS count ?? 0), and
assigns only when unreadCounts has an own property for the source. -/
def updateUnreadCount (s : MainState) (source : String) (count : Option ℤ) : MainState :=
  if VALID_VIEW_IDS.contains source then
    if hasCountKey s.unreadCounts source then
      { s with unreadCounts := setCount s.unreadCounts source (count.getD 0) }
    else s
  else s

/-- Sum of the values of the unreadCounts map, as computed by the
Object.values reduce in the update-badge handler. -/
def sumCounts (m : List (String × ℤ)) : ℤ := (m.map Prod.snd).sum

/-- The update-badge IPC handler of main.js (current variant): updates
the count, then unconditionally recomputes the total, emits it to the OS
badge and sends the whole map to the menu view. -/
def updateBadgeHandler (s : MainState) (source : String) (count : Option ℤ) :
    MainState × List Msg :=
  let s1 := updateUnreadCount s source count
  (s1, Msg.setBadgeCount (sumCounts s1.unreadCounts) ::
        sendToMenu s1 (Msg.menuBadges s1.unreadCounts))

/-- Folds a list of update-badge calls over the state, keeping only the
resulting states. -/
def runBadgeCalls (s : MainState) (calls : List (String × Option ℤ)) : MainState :=
  calls.foldl (fun st call => (updateBadgeHandler st call.1 call.2).1) s

/-- Extracts the total emitted to the OS badge indicator from an event
list, if any. -/
def emittedBadgeTotal (msgs : List Msg) : Option ℤ :=
  msgs.findSome? (fun m =>
    match m with
    | Msg.setBadgeCount t => some t
    | _ => none)

/-- Trace of a sequence of update-badge calls: for each call, the total
emitted to the OS badge by that call paired with the unreadCounts map
stored right after it. -/
def badgeTrace (s : MainState) : List (String × Option ℤ) → List (Option ℤ × List (String × ℤ))
  | [] => []
  | call :: rest =>
    let r := updateBadgeHandler s call.1 call.2
    (emittedBadgeTotal r.2, r.1.unreadCounts) :: badgeTrace r.1 rest

/-- Outcome of the asynchronous favicon fetch issued through net.request:
the request constructor may throw, the request may fail with a network
error, or a response arrives with a status code, a declared content type
and a body (kept in its base64 form). -/
inductive FetchOutcome where
  | throwOnRequest (message : String)
  | networkError (message : String)
  | response (statusCode : Nat) (contentType : String) (bodyBase64 : String)
  deriving DecidableEq

/-- The JS String.startsWith test, computed on the character sequences. -/
def strStartsWith (s pre : String) : Bool := pre.data.isPrefixOf s.data

/-- The template literal assembling the data url in the favicon handler. -/
def dataUrlOf (contentType bodyBase64 : String) : String :=
  "data:" ++ contentType ++ ";base64," ++ bodyBase64

/-- The update-favicon IPC handler of main.js (current variant): ignores
a falsy faviconUrl, forwards a data url unchanged to the menu view
without fetching, and otherwise issues a network fetch whose outcome
either logs an error (throw or network error), is silently dropped
(non-200 status) or is re-encoded as a data url and forwarded. -/
def updateFaviconHandler (s : MainState) (source faviconUrl : String)
    (outcome : FetchOutcome) : List Msg :=
  if faviconUrl == "" then []
  else if strStartsWith faviconUrl "data:" then
    sendToMenu s (Msg.menuIcon source faviconUrl)
  else
    match outcome with
    | FetchOutcome.throwOnRequest m =>
      [Msg.logError ("Favicon request failed " ++ source ++ ": " ++ m)]
    | FetchOutcome.networkError m =>
      [Msg.netFetch faviconUrl, Msg.logError ("Favicon error " ++ source ++ ": " ++ m)]
    | FetchOutcome.response status contentType body =>
      Msg.netFetch faviconUrl ::
        (if status == 200 then sendToMenu s (Msg.menuIcon source (dataUrlOf contentType body))
         else [])

/-- The _getSafeView check of main.js: the id must be in VALID_VIEW_IDS
and a view must have been created for it. -/
def getSafeView (s : MainState) (id : String) : Bool :=
  VALID_VIEW_IDS.contains id && s.views.contains id

/-- Configuration lookup by id, as done inside _switchToTab. -/
def findConfig (id : String) : Option ViewConfig :=
  VIEW_CONFIG.find? (fun c => c.id == id)

/-- The _switchToTab method of main.js: returns unchanged on an unsafe id;
otherwise shows the loading state, lazily loads the target when needed,
blurs the previously active view, persists lastTab, sets the active id,
raises and focuses the target and tells the menu the new active tab. -/
def switchToTab (s : MainState) (tabId : String) : MainState × List Msg :=
  if getSafeView s tabId then
    let loadingOn := sendToMenu s (Msg.setLoadingState tabId true)
    let lazy : MainState × List Msg :=
      if s.loadedViews.contains tabId then
        (s, sendToMenu s (Msg.setLoadingState tabId false))
      else
        match (findConfig tabId).bind (fun c => c.url) with
        | some url =>
          ({ s with loadedViews := s.loadedViews ++ [tabId] }, [Msg.loadURL tabId url])
        | none => (s, [])
    let blurMsgs : List Msg :=
      match s.activeViewId with
      | some cur => if getSafeView s cur then [Msg.blurView cur] else []
      | none => []
    let s2 : MainState :=
      { lazy.1 with storeLastTab := some tabId, activeViewId := some tabId }
    (s2, loadingOn ++ lazy.2 ++ blurMsgs ++
      [Msg.storeSetLastTab tabId, Msg.raiseView tabId, Msg.focusView tabId] ++
      sendToMenu s (Msg.setActiveTab tabId))
  else (s, [])

/-- One iteration of the forEach body of _createViews in main.js, with the
whole body wrapped in try/catch: an invalid preload throws and is caught
and logged; a disabled content service is skipped; a runtime creation
failure (modelled by the fails oracle at view construction) is caught and
logged; otherwise a content view initialises its unread count to 0 and
every created view is recorded. -/
def createViewsStep (fails : ViewConfig → Bool) (acc : MainState × List Msg)
    (c : ViewConfig) : MainState × List Msg :=
  let s := acc.1
  if VALID_PRELOADS.contains c.preload then
    if c.isContent && !(s.enabledServices c.id) then acc
    else if fails c then
      (s, acc.2 ++ [Msg.logError ("[MainWindow] Failed to create view " ++ c.id)])
    else
      let s1 := if c.isContent then
          { s with unreadCounts := s.unreadCounts ++ [(c.id, 0)] }
        else s
      ({ s1 with views := s1.views ++ [c.id] }, acc.2)
  else
    (s, acc.2 ++ [Msg.logError ("[MainWindow] Failed to create view " ++ c.id)])

/-- The _createViews method of main.js: iterates the configuration,
isolating each entry by the per-entry try/catch. -/
def createViews (fails : ViewConfig → Bool) (s : MainState)
    (configs : List ViewConfig) : MainState × List Msg :=
  configs.foldl (createViewsStep fails) (s, [])

/-- The orchestrator state right after the constructor and _createViews
run with every service enabled and no runtime creation failure. -/
def allEnabledState : MainState :=
  (createViews (fun _ => false) (initialState (fun _ => true)) VIEW_CONFIG).1

/-- The sendChannels allow-list of the IPC_API_CONTRACT object in the
menu preload script (current variant). -/
def sendChannels : List String := ["switch-tab", "show-context-menu"]

/-- The receiveChannels allow-list of the same IPC_API_CONTRACT object. -/
def receiveChannels : List String :=
  ["set-active-tab", "update-menu-badges", "update-menu-icon", "get-enabled-services"]

/-- State of the message bus: the subscriber list in registration order
(each subscriber is a channel name paired with a handler identifier) and
the accumulated security warnings. -/
structure BusState where
  subs : List (String × Nat)
  warnings : List String
  deriving DecidableEq

/-- Event-emitter delivery: walks the subscriber list in registration
order and invokes every handler subscribed to the channel, producing the
list of handler invocations in that order. -/
def emitToSubs (subs : List (String × Nat)) (channel payload : String) :
    List (Nat × String) :=
  match subs with
  | [] => []
  | p :: rest =>
    (if p.1 == channel then [(p.2, payload)] else []) ++ emitToSubs rest channel payload

/-- The exposedApi.send function of the menu preload script: a channel
outside sendChannels is dropped with a warning and reaches no handler;
an allow-listed channel is handed to the emitter, which delivers to the
subscribers of that channel.  Returns the handler invocations and the
warnings produced by the call. -/
def apiSend (b : BusState) (channel payload : String) :
    List (Nat × String) × List String :=
  if sendChannels.contains channel then (emitToSubs b.subs channel payload, [])
  else ([], ["[Security] Ignored send: " ++ channel])

/-- The exposedApi.on function of the menu preload script: registration
on a channel outside receiveChannels is refused with a warning (and the
caller receives a no-op unsubscribe, modelled by the false flag);
otherwise the handler is appended to the subscriber list. -/
def apiOn (b : BusState) (channel : String) (handler : Nat) : BusState × Bool :=
  if receiveChannels.contains channel then
    ({ b with subs := b.subs ++ [(channel, handler)] }, true)
  else
    ({ b with warnings := b.warnings ++ ["[Security] Ignored on: " ++ channel] }, false)

/-- State over which the show-notification handler acts.  The
activeNotifications field is the active-notification set the
specification describes; the source handler never reads or writes any
such set, so no operation below touches this field. -/
structure NotifState where
  activeNotifications : List Nat
  winFocused : Bool
  deriving DecidableEq

/-- Observable effects of the notification relay. -/
inductive NotifEvent where
  | constructed (title body : String)
  | shown
  | focusWin
  deriving DecidableEq

/-- The show-notification IPC handler of main.js (first variant): when
the OS supports notifications, constructs one with the given title and
body and shows it; otherwise does nothing.  No handle is recorded
anywhere. -/
def showNotificationHandler (supported : Bool) (s : NotifState) (title body : String) :
    NotifState × List NotifEvent :=
  if supported then (s, [NotifEvent.constructed title body, NotifEvent.shown])
  else (s, [])

/-- The click listener installed on the notification: focuses the shell
window.  It does not remove anything from a handle set. -/
def notificationClick (s : NotifState) : NotifState × List NotifEvent :=
  ({ s with winFocused := true }, [NotifEvent.focusWin])

/-- Direction reported by the zoom-changed event of a web contents. -/
inductive ZoomDirection where
  | zoomIn
  | zoomOut
  deriving DecidableEq

/-- Zoom state of one session: the live zoom factor of the web contents,
the in-memory zoomLevels map and the copy persisted in the store. -/
structure ZoomState where
  current : ℚ
  zoomLevels : List (String × ℚ)
  storeZoomLevels : List (String × ℚ)
  deriving DecidableEq

/-- JS object assignment that may create the key: existing keys are
updated in place, a new key is appended. -/
def upsert (m : List (String × ℚ)) (k : String) (v : ℚ) : List (String × ℚ) :=
  if m.any (fun p => p.1 == k) then m.map (fun p => if p.1 == k then (p.1, v) else p)
  else m ++ [(k, v)]

/-- The new zoom factor computed by the zoom-changed listener: zooming in
is capped at 3.0, zooming out is floored at 0.5, in steps of 0.1. -/
def zoomStep (z : ℚ) (d : ZoomDirection) : ℚ :=
  match d with
  | ZoomDirection.zoomIn => min (z + 1 / 10) 3
  | ZoomDirection.zoomOut => max (z - 1 / 10) (1 / 2)

/-- The zoom-changed listener of _createViews: computes the clamped new
factor, applies it to the web contents, records it in zoomLevels under
the id of the session, and persists the updated map to the store. -/
def zoomChanged (id : String) (s : ZoomState) (d : ZoomDirection) : ZoomState :=
  let nz := zoomStep s.current d
  let zl := upsert s.zoomLevels id nz
  { current := nz, zoomLevels := zl, storeZoomLevels := zl }

/-- Runs a finite sequence of zoom-changed events for one session. -/
def runZoom (id : String) (s : ZoomState) (ds : List ZoomDirection) : ZoomState :=
  ds.foldl (zoomChanged id) s

/-! Helper lemmas shared by the claim theorems. -/

/-- A string beginning with the data scheme is not the empty string. -/
theorem beq_empty_false_of_data (url : String) (h : strStartsWith url "data:" = true) :
    (url == "") = false := by
  cases he : url == ""
  · rfl
  · exfalso
    have hu : url = "" := eq_of_beq he
    rw [hu] at h
    exact absurd h (by decide)

/-- Assigning an existing key stores exactly the given value. -/
theorem lookupCount_setCount_self {α : Type} (m : List (String × α)) (k : String) (v : α)
    (h : hasCountKey m k = true) :
    lookupCount (setCount m k v) k = some v := by
  unfold lookupCount setCount
  rw [List.find?_map]
  have hcomp : ((fun p : String × α => p.1 == k) ∘ fun p : String × α =>
      if p.1 == k then (p.1, v) else p) = fun p : String × α => p.1 == k := by
    funext p
    by_cases hp : p.1 = k <;> simp [hp]
  rw [hcomp]
  have hex : ∃ x, x ∈ m ∧ (x.1 == k) = true := by
    simpa [hasCountKey, List.any_eq_true] using h
  have hsome : (m.find? (fun p => p.1 == k)).isSome := List.find?_isSome.mpr hex
  obtain ⟨a, ha⟩ := Option.isSome_iff_exists.mp hsome
  have hpa : (a.1 == k) = true := by
    have hgen := List.find?_some ha
    simpa using hgen
  rw [ha]
  simp [eq_of_beq hpa]

/-- Assigning one key leaves every other key unchanged. -/
theorem lookupCount_setCount_other {α : Type} (m : List (String × α)) (k k2 : String) (v : α)
    (h : (k2 == k) = false) :
    lookupCount (setCount m k v) k2 = lookupCount m k2 := by
  unfold lookupCount setCount
  rw [List.find?_map]
  have hcomp : ((fun p : String × α => p.1 == k2) ∘ fun p : String × α =>
      if p.1 == k then (p.1, v) else p) = fun p : String × α => p.1 == k2 := by
    funext p
    by_cases hp : p.1 = k <;> simp [hp]
  rw [hcomp]
  cases hf : m.find? (fun p => p.1 == k2) with
  | none => simp
  | some a =>
    have hpa : (a.1 == k2) = true := by
      have hgen := List.find?_some hf
      simpa using hgen
    have ha2 : a.1 = k2 := eq_of_beq hpa
    have hak : ¬ a.1 = k := by
      rw [ha2]
      intro hkk
      rw [hkk] at h
      simp at h
    simp [hak]

/-- The badge handler emits the OS badge total as its first event. -/
theorem emittedBadgeTotal_cons (t : ℤ) (rest : List Msg) :
    emittedBadgeTotal (Msg.setBadgeCount t :: rest) = some t := rfl

/-- Claim C2: after every finite sequence of updateCount calls, each
total emitted to the OS badge indicator equals the sum of the per-session
counts stored in UnreadCounts at that point; the total is recomputed from
the stored map on every update and is never an independent accumulator. -/
theorem badge_total_always_live_sum (s : MainState) (calls : List (String × Option ℤ))
    (p : Option ℤ × List (String × ℤ)) (hp : p ∈ badgeTrace s calls) :
    p.1 = some (sumCounts p.2) := by
  induction calls generalizing s with
  | nil => simp [badgeTrace] at hp
  | cons call rest ih =>
    simp only [badgeTrace] at hp
    rcases List.mem_cons.mp hp with h | h
    · subst h
      simp only [updateBadgeHandler, emittedBadgeTotal_cons]
    · exact ih _ h

/-- Witness for C2, instantiating the theorem on the scenario
updateCount(gmail, 5) then updateCount(chat, 3), whose second step emits
the total 8 while storing gmail 5 and chat 3. -/
theorem badge_total_always_live_sum_witness :
    (some (8 : ℤ),
      [("aistudio", (0 : ℤ)), ("gmail", 5), ("calendar", 0), ("chat", 3), ("drive", 0),
        ("tasks", 0)]) ∈
        badgeTrace allEnabledState [("gmail", some 5), ("chat", some 3)] ∧
    some (8 : ℤ) = some (sumCounts
      [("aistudio", (0 : ℤ)), ("gmail", 5), ("calendar", 0), ("chat", 3), ("drive", 0),
        ("tasks", 0)]) := by
  have htr : badgeTrace allEnabledState [("gmail", some 5), ("chat", some 3)] =
      [(some 5, [("aistudio", (0 : ℤ)), ("gmail", 5), ("calendar", 0), ("chat", 0),
          ("drive", 0), ("tasks", 0)]),
       (some 8, [("aistudio", (0 : ℤ)), ("gmail", 5), ("calendar", 0), ("chat", 3),
          ("drive", 0), ("tasks", 0)])] := by decide
  have hmem : (some (8 : ℤ),
      [("aistudio", (0 : ℤ)), ("gmail", 5), ("calendar", 0), ("chat", 3), ("drive", 0),
        ("tasks", 0)]) ∈
        badgeTrace allEnabledState [("gmail", some 5), ("chat", some 3)] := by
    rw [htr]
    exact List.mem_cons_of_mem _ (List.mem_cons_self _ _)
  exact ⟨hmem,
    badge_total_always_live_sum allEnabledState [("gmail", some 5), ("chat", some 3)] _ hmem⟩

/-- Claim C5 counterexample: for the enabled source gmail and the
negative count -5, updateCount stores -5 rather than the 0 the claim
requires for values that are not valid non-negative integers. -/
theorem updateCount_negative_stored_counterexample :
    lookupCount (updateUnreadCount allEnabledState "gmail" (some (-5))).unreadCounts "gmail"
      = some (-5) ∧ ((-5 : ℤ) = 0 → False) := by
  constructor
  · decide
  · intro h
    exact absurd h (by norm_num)

/-- Claim C5 (amended): for an enabled sourceId, updateCount stores 0
exactly when count is absent (null or undefined); any numeric value,
negative or fractional included, is stored as given, overwriting the
previous count (last-writer-wins) and leaving every other key unchanged. -/
theorem updateCount_nullish_default_lww (s : MainState) (source : String) (count : Option ℤ)
    (hv : VALID_VIEW_IDS.contains source = true)
    (hk : hasCountKey s.unreadCounts source = true) :
    lookupCount (updateUnreadCount s source count).unreadCounts source
      = some (count.getD 0) ∧
    ∀ k, (k == source) = false →
      lookupCount (updateUnreadCount s source count).unreadCounts k
        = lookupCount s.unreadCounts k := by
  constructor
  · simp only [updateUnreadCount, hv, hk, if_true]
    exact lookupCount_setCount_self s.unreadCounts source (count.getD 0) hk
  · intro k hke
    simp only [updateUnreadCount, hv, hk, if_true]
    exact lookupCount_setCount_other s.unreadCounts source k (count.getD 0) hke

/-- Witness for C5 (amended), storing the value -7 for gmail and checking
the chat key is untouched. -/
theorem updateCount_nullish_default_lww_witness :
    lookupCount (updateUnreadCount allEnabledState "gmail" (some (-7))).unreadCounts "gmail"
      = some ((some ((-7) : ℤ)).getD 0) ∧
    lookupCount (updateUnreadCount allEnabledState "gmail" (some (-7))).unreadCounts "chat"
      = lookupCount allEnabledState.unreadCounts "chat" :=
  ⟨(updateCount_nullish_default_lww allEnabledState "gmail" (some (-7)) (by decide)
      (by decide)).1,
   (updateCount_nullish_default_lww allEnabledState "gmail" (some (-7)) (by decide)
      (by decide)).2 "chat" (by decide)⟩

/-- Claim C1 counterexample: the source evil is not an enabled
content-session id (not even a valid view id and without an unreadCounts
key), yet the update-badge handler still emits an OS badge update and an
update-menu-badges message. -/
theorem updateBadge_invalid_source_still_emits :
    VALID_VIEW_IDS.contains "evil" = false ∧
    hasCountKey allEnabledState.unreadCounts "evil" = false ∧
    (updateBadgeHandler allEnabledState "evil" (some 5)).2 =
      [Msg.setBadgeCount 0,
       Msg.menuBadges
         [("aistudio", 0), ("gmail", 0), ("calendar", 0), ("chat", 0), ("drive", 0),
          ("tasks", 0)]] := by
  refine ⟨by decide, by decide, by decide⟩

/-- Claim C1 (amended): for a sourceId with no unreadCounts key (every
sourceId that is not an enabled content-session id), the badge and
favicon handlers leave all orchestrator state, stored maps included,
unchanged; however the badge handler still emits the recomputed
unchanged total to the OS badge and an update-menu-badges message, and
the favicon handler performs no sourceId check at all, forwarding a data
url for any sourceId whenever the menu view exists. -/
theorem invalid_source_frame (s : MainState) (source : String) (count : Option ℤ)
    (url : String) (outcome : FetchOutcome)
    (hkey : hasCountKey s.unreadCounts source = false)
    (hmenu : s.views.contains "menu" = true)
    (hdata : strStartsWith url "data:" = true) :
    (updateBadgeHandler s source count).1 = s ∧
    (updateBadgeHandler s source count).2 =
      [Msg.setBadgeCount (sumCounts s.unreadCounts), Msg.menuBadges s.unreadCounts] ∧
    updateFaviconHandler s source url outcome = [Msg.menuIcon source url] := by
  have hstate : updateUnreadCount s source count = s := by
    unfold updateUnreadCount
    rw [hkey]
    split <;> rfl
  refine ⟨?_, ?_, ?_⟩
  · simp only [updateBadgeHandler, hstate]
  · simp only [updateBadgeHandler, hstate, sendToMenu, hmenu, if_true]
  · unfold updateFaviconHandler
    rw [beq_empty_false_of_data url hdata, hdata]
    simp only [Bool.false_eq_true, if_false, if_true, sendToMenu, hmenu]

/-- Witness for C1 (amended): exercises the theorem on the invalid
source evil against the fully created state. -/
theorem invalid_source_frame_witness :
    (updateBadgeHandler allEnabledState "evil" (some 9)).1 = allEnabledState ∧
    (updateBadgeHandler allEnabledState "evil" (some 9)).2 =
      [Msg.setBadgeCount (sumCounts allEnabledState.unreadCounts),
       Msg.menuBadges allEnabledState.unreadCounts] ∧
    updateFaviconHandler allEnabledState "evil" "data:image/png;base64,AAAA"
        (FetchOutcome.networkError "boom") =
      [Msg.menuIcon "evil" "data:image/png;base64,AAAA"] :=
  invalid_source_frame allEnabledState "evil" (some 9) "data:image/png;base64,AAAA"
    (FetchOutcome.networkError "boom") (by decide) (by decide) (by decide)

/-- Claim C6: an iconRef that is already a data url is forwarded to the
shell UI unchanged with no network fetch, independently of the fetch
environment; the passthrough payload is exactly the given url. -/
theorem updateIcon_data_passthrough (s : MainState) (source url : String)
    (outcome : FetchOutcome) (hdata : strStartsWith url "data:" = true) :
    updateFaviconHandler s source url outcome = sendToMenu s (Msg.menuIcon source url) ∧
    (∀ u, Msg.netFetch u ∉ updateFaviconHandler s source url outcome) ∧
    (∀ o2 : FetchOutcome,
      updateFaviconHandler s source url o2 = updateFaviconHandler s source url outcome) := by
  have hne := beq_empty_false_of_data url hdata
  have hmain : updateFaviconHandler s source url outcome =
      sendToMenu s (Msg.menuIcon source url) := by
    unfold updateFaviconHandler
    rw [hne, hdata]
    simp only [Bool.false_eq_true, if_false, if_true]
  refine ⟨hmain, ?_, ?_⟩
  · intro u
    rw [hmain]
    unfold sendToMenu
    split
    · intro hmem
      rcases List.mem_singleton.mp hmem with h
      cases h
    · intro hmem
      cases hmem
  · intro o2
    rw [hmain]
    unfold updateFaviconHandler
    rw [hne, hdata]
    simp only [Bool.false_eq_true, if_false, if_true]

/-- Witness for C6, the scenario updateIcon(gmail, data png): the UI
receives exactly that data url and no fetch happens. -/
theorem updateIcon_data_passthrough_witness :
    updateFaviconHandler allEnabledState "gmail" "data:image/png;base64,AAAA"
        (FetchOutcome.response 404 "image/png" "BBBB") =
      sendToMenu allEnabledState
        (Msg.menuIcon "gmail" "data:image/png;base64,AAAA") ∧
    (Msg.netFetch "data:image/png;base64,AAAA" ∉
      updateFaviconHandler allEnabledState "gmail" "data:image/png;base64,AAAA"
        (FetchOutcome.response 404 "image/png" "BBBB")) :=
  ⟨(updateIcon_data_passthrough allEnabledState "gmail" "data:image/png;base64,AAAA"
      (FetchOutcome.response 404 "image/png" "BBBB") (by decide)).1,
   (updateIcon_data_passthrough allEnabledState "gmail" "data:image/png;base64,AAAA"
      (FetchOutcome.response 404 "image/png" "BBBB") (by decide)).2.1
     "data:image/png;base64,AAAA"⟩

/-- Claim C8 counterexample: a fetch that answers with status 404 is
dropped and nothing is forwarded, but no log entry is produced either,
contradicting the part of the claim that says every failure is logged. -/
theorem updateIcon_non200_drops_without_log :
    updateFaviconHandler allEnabledState "gmail" "https://mail.google.com/favicon.ico"
        (FetchOutcome.response 404 "image/png" "AAAA") =
      [Msg.netFetch "https://mail.google.com/favicon.ico"] := by
  decide

/-- Claim C8 (amended): when the favicon fetch fails, the result is
dropped and no update-menu-icon message reaches the shell UI, so the UI
keeps the prior icon; a network error (and a throwing request) is logged,
while a response with a non-success status is dropped silently without a
log entry; only a status-200 response leads to re-encoding into a data
url and forwarding. -/
theorem updateIcon_fetch_failure_dropped (s : MainState) (source url : String)
    (hne : (url == "") = false) (hnd : strStartsWith url "data:" = false) :
    (∀ m, updateFaviconHandler s source url (FetchOutcome.networkError m) =
      [Msg.netFetch url, Msg.logError ("Favicon error " ++ source ++ ": " ++ m)]) ∧
    (∀ status contentType body, status ≠ 200 →
      updateFaviconHandler s source url (FetchOutcome.response status contentType body) =
        [Msg.netFetch url]) ∧
    (∀ contentType body,
      updateFaviconHandler s source url (FetchOutcome.response 200 contentType body) =
        Msg.netFetch url :: sendToMenu s (Msg.menuIcon source (dataUrlOf contentType body))) := by
  refine ⟨?_, ?_, ?_⟩
  · intro m
    unfold updateFaviconHandler
    rw [hne, hnd]
    rfl
  · intro status contentType body hst
    unfold updateFaviconHandler
    rw [hne, hnd]
    have hb : (status == 200) = false := by
      cases hbe : status == 200
      · rfl
      · exact absurd (eq_of_beq hbe) hst
    simp only [Bool.false_eq_true, if_false, hb, List.cons.injEq, and_true]
  · intro contentType body
    unfold updateFaviconHandler
    rw [hne, hnd]
    rfl

/-- Witness for C8 (amended): a network error for gmail is logged and
forwards nothing; a 500 response forwards nothing; a 200 response with
an icon body is re-encoded and forwarded. -/
theorem updateIcon_fetch_failure_dropped_witness :
    updateFaviconHandler allEnabledState "gmail" "https://mail.google.com/favicon.ico"
        (FetchOutcome.networkError "ECONNRESET") =
      [Msg.netFetch "https://mail.google.com/favicon.ico",
       Msg.logError ("Favicon error " ++ "gmail" ++ ": " ++ "ECONNRESET")] ∧
    updateFaviconHandler allEnabledState "gmail" "https://mail.google.com/favicon.ico"
        (FetchOutcome.response 500 "text/html" "CCCC") =
      [Msg.netFetch "https://mail.google.com/favicon.ico"] ∧
    updateFaviconHandler allEnabledState "gmail" "https://mail.google.com/favicon.ico"
        (FetchOutcome.response 200 "image/png" "AAAA") =
      Msg.netFetch "https://mail.google.com/favicon.ico" ::
        sendToMenu allEnabledState (Msg.menuIcon "gmail" (dataUrlOf "image/png" "AAAA")) :=
  ⟨(updateIcon_fetch_failure_dropped allEnabledState "gmail"
      "https://mail.google.com/favicon.ico" (by decide) (by decide)).1 "ECONNRESET",
   (updateIcon_fetch_failure_dropped allEnabledState "gmail"
      "https://mail.google.com/favicon.ico" (by decide) (by decide)).2.1 500 "text/html"
      "CCCC" (by decide),
   (updateIcon_fetch_failure_dropped allEnabledState "gmail"
      "https://mail.google.com/favicon.ico" (by decide) (by decide)).2.2 "image/png" "AAAA"⟩

/-- Delivery characterisation of the event emitter: the handlers invoked
are exactly the subscribers of the channel, in registration order. -/
theorem emitToSubs_eq_filter (subs : List (String × Nat)) (channel payload : String) :
    emitToSubs subs channel payload =
      (subs.filter (fun p => p.1 == channel)).map (fun p => (p.2, payload)) := by
  induction subs with
  | nil => rfl
  | cons p rest ih =>
    by_cases hp : (p.1 == channel) = true
    · simp only [emitToSubs, hp, if_true, List.filter_cons, List.map_cons, ih,
        List.singleton_append]
    · have hp2 : (p.1 == channel) = false := by
        cases hpe : p.1 == channel
        · rfl
        · exact absurd hpe hp
      simp only [emitToSubs, hp2, Bool.false_eq_true, if_false, List.filter_cons, ih,
        List.nil_append]

/-- Claim C4: a send on a channel outside the sendChannels allow-list
invokes zero subscriber handlers and logs the violation; a send on an
allow-listed channel is delivered to all current subscribers of that
channel, in registration order (the order of the subscriber list, which
registration always appends to). -/
theorem send_allowlist_gate (b : BusState) (channel payload : String) :
    (sendChannels.contains channel = false →
      (apiSend b channel payload).1 = [] ∧
      (apiSend b channel payload).2 = ["[Security] Ignored send: " ++ channel]) ∧
    (sendChannels.contains channel = true →
      (apiSend b channel payload).1 =
        (b.subs.filter (fun p => p.1 == channel)).map (fun p => (p.2, payload)) ∧
      (apiSend b channel payload).2 = []) := by
  constructor
  · intro hno
    unfold apiSend
    rw [hno]
    exact ⟨rfl, rfl⟩
  · intro hyes
    unfold apiSend
    rw [hyes]
    exact ⟨emitToSubs_eq_filter b.subs channel payload, rfl⟩

/-- Witness for C4: with two registered subscribers, a send on the
unlisted channel evil-channel reaches no handler and is logged, while a
send on switch-tab reaches exactly the switch-tab subscriber. -/
theorem send_allowlist_gate_witness :
    (apiSend ⟨[("switch-tab", 1), ("show-context-menu", 2)], []⟩ "evil-channel" "x").1
      = [] ∧
    (apiSend ⟨[("switch-tab", 1), ("show-context-menu", 2)], []⟩ "evil-channel" "x").2
      = ["[Security] Ignored send: " ++ "evil-channel"] ∧
    (apiSend ⟨[("switch-tab", 1), ("show-context-menu", 2)], []⟩ "switch-tab" "y").1
      = [(1, "y")] := by
  refine ⟨((send_allowlist_gate ⟨[("switch-tab", 1), ("show-context-menu", 2)], []⟩
      "evil-channel" "x").1 (by decide)).1,
    ((send_allowlist_gate ⟨[("switch-tab", 1), ("show-context-menu", 2)], []⟩
      "evil-channel" "x").1 (by decide)).2, ?_⟩
  rw [((send_allowlist_gate ⟨[("switch-tab", 1), ("show-context-menu", 2)], []⟩
      "switch-tab" "y").2 (by decide)).1]
  decide

/-- Claim C9 counterexample: after a relayed notification is shown, no
handle has been added to any active-notification set (the state field
stays empty), and a click removes nothing from it either. -/
theorem relay_no_handle_tracking :
    (showNotificationHandler true ⟨[], false⟩ "Hello" "World").1.activeNotifications
      = [] ∧
    (notificationClick ⟨[7], true⟩).1.activeNotifications = [7] := by
  exact ⟨rfl, rfl⟩

/-- Claim C9 (amended): when OS notifications are supported, the
show-notification handler constructs and shows a notification with the
given title and body, and the installed click listener focuses the shell
window; no active-notification set is maintained, so neither displaying
nor clicking changes the tracked-handle state, and an unsupported OS
shows nothing. -/
theorem relay_shows_and_click_focuses (s : NotifState) (title body : String) :
    showNotificationHandler true s title body =
      (s, [NotifEvent.constructed title body, NotifEvent.shown]) ∧
    showNotificationHandler false s title body = (s, []) ∧
    notificationClick s = ({ s with winFocused := true }, [NotifEvent.focusWin]) ∧
    (notificationClick s).1.activeNotifications = s.activeNotifications := by
  exact ⟨rfl, rfl, rfl, rfl⟩

/-- Claim C3 counterexample: menu is not an enabled content-session id,
yet switchTo(menu) is not a no-op: it makes menu the active view (and
persists it), because VALID_VIEW_IDS also contains the internal menu
view id. -/
theorem switchTo_menu_counterexample :
    (switchToTab allEnabledState "menu").1.activeViewId = some "menu" ∧
    (switchToTab allEnabledState "menu").1.storeLastTab = some "menu" ∧
    isContentSessionId "menu" = false := by
  refine ⟨by decide, by decide, by decide⟩

/-- Claim C3 (amended): provided the current active id (if any) passes
the safe-view check, after switchTo(id) the active id equals id exactly
when id is a valid view id with a created view, a set that contains the
enabled content sessions and also the internal menu view; when the
safe-view check fails the call is a complete no-op (state and persisted
lastTab unchanged, no message emitted), and a single active id is kept
at all times. -/
theorem switchTo_active_iff_created (s : MainState) (id : String)
    (hinv : ∀ a, s.activeViewId = some a → getSafeView s a = true) :
    ((switchToTab s id).1.activeViewId = some id ↔ getSafeView s id = true) ∧
    (getSafeView s id = false →
      (switchToTab s id).1 = s ∧ (switchToTab s id).2 = []) := by
  by_cases h : getSafeView s id = true
  · constructor
    · constructor
      · intro _
        exact h
      · intro _
        simp only [switchToTab, h, if_true]
    · intro hfalse
      rw [h] at hfalse
      cases hfalse
  · have hb : getSafeView s id = false := by
      cases hge : getSafeView s id
      · rfl
      · exact absurd hge h
    have heq : switchToTab s id = (s, []) := by
      unfold switchToTab
      rw [hb]
      simp only [Bool.false_eq_true, if_false]
    constructor
    · rw [heq]
      constructor
      · intro hact
        have hcontra := hinv id hact
        rw [hb] at hcontra
        cases hcontra
      · intro hc
        rw [hb] at hc
        cases hc
    · intro _
      rw [heq]
      exact ⟨rfl, rfl⟩

/-- Witness for C3 (amended): instantiates the theorem for the enabled
session drive on the fully created state, whose active id is none so the
invariant hypothesis holds vacuously. -/
theorem switchTo_active_iff_created_witness :
    ((switchToTab allEnabledState "drive").1.activeViewId = some "drive" ↔
      getSafeView allEnabledState "drive" = true) ∧
    (getSafeView allEnabledState "drive" = false →
      (switchToTab allEnabledState "drive").1 = allEnabledState ∧
      (switchToTab allEnabledState "drive").2 = []) :=
  switchTo_active_iff_created allEnabledState "drive"
    (fun a h => by
      rw [(by decide : allEnabledState.activeViewId = (none : Option String))] at h
      cases h)

/-- One _createViews iteration never changes the enabled-services map. -/
theorem createViewsStep_enabled (fails : ViewConfig → Bool) (acc : MainState × List Msg)
    (c : ViewConfig) :
    (createViewsStep fails acc c).1.enabledServices = acc.1.enabledServices := by
  simp only [createViewsStep]
  repeat' split
  all_goals rfl

/-- One _createViews iteration keeps every previously created view. -/
theorem createViewsStep_views_mono (fails : ViewConfig → Bool)
    (acc : MainState × List Msg) (c : ViewConfig) (x : String)
    (hx : x ∈ acc.1.views) : x ∈ (createViewsStep fails acc c).1.views := by
  simp only [createViewsStep]
  repeat' split
  all_goals first
    | exact hx
    | exact List.mem_append_left _ hx

/-- One _createViews iteration keeps every previously logged message. -/
theorem createViewsStep_msgs_mono (fails : ViewConfig → Bool)
    (acc : MainState × List Msg) (c : ViewConfig) (m : Msg)
    (hm : m ∈ acc.2) : m ∈ (createViewsStep fails acc c).2 := by
  simp only [createViewsStep]
  repeat' split
  all_goals first
    | exact hm
    | exact List.mem_append_left _ hm

/-- Views persist through the rest of the _createViews fold. -/
theorem createViews_fold_views_mono (fails : ViewConfig → Bool) :
    ∀ (configs : List ViewConfig) (acc : MainState × List Msg) (x : String),
      x ∈ acc.1.views → x ∈ (configs.foldl (createViewsStep fails) acc).1.views := by
  intro configs
  induction configs with
  | nil => intro acc x hx; exact hx
  | cons c rest ih =>
    intro acc x hx
    rw [List.foldl_cons]
    exact ih _ x (createViewsStep_views_mono fails acc c x hx)

/-- Log messages persist through the rest of the _createViews fold. -/
theorem createViews_fold_msgs_mono (fails : ViewConfig → Bool) :
    ∀ (configs : List ViewConfig) (acc : MainState × List Msg) (m : Msg),
      m ∈ acc.2 → m ∈ (configs.foldl (createViewsStep fails) acc).2 := by
  intro configs
  induction configs with
  | nil => intro acc m hm; exact hm
  | cons c rest ih =>
    intro acc m hm
    rw [List.foldl_cons]
    exact ih _ m (createViewsStep_msgs_mono fails acc c m hm)

/-- An eligible config whose creation does not fail is created by the
fold, whatever happens to the other entries. -/
theorem createViews_member_created (fails : ViewConfig → Bool) (en : String → Bool) :
    ∀ (configs : List ViewConfig) (acc : MainState × List Msg),
      acc.1.enabledServices = en →
      ∀ c, c ∈ configs →
        VALID_PRELOADS.contains c.preload = true → fails c = false →
        (c.isContent = false ∨ en c.id = true) →
        c.id ∈ (configs.foldl (createViewsStep fails) acc).1.views := by
  intro configs
  induction configs with
  | nil => intro acc _ c hc; cases hc
  | cons d rest ih =>
    intro acc hacc c hc hpre hok hen
    rw [List.foldl_cons]
    rcases List.mem_cons.mp hc with hcd | hc2
    · subst hcd
      apply createViews_fold_views_mono
      have hskip : (c.isContent && !(acc.1.enabledServices c.id)) = false := by
        rcases hen with hc1 | hc1
        · rw [hc1]
          rfl
        · rw [hacc, hc1]
          simp
      simp only [createViewsStep, hpre, hskip, hok, Bool.false_eq_true, if_false, if_true]
      split <;> exact List.mem_append_right _ (List.mem_singleton_self _)
    · exact ih (createViewsStep fails acc d)
        (by rw [createViewsStep_enabled, hacc]) c hc2 hpre hok hen

/-- An eligible config whose creation fails gets its error logged by the
fold. -/
theorem createViews_failure_logged (fails : ViewConfig → Bool) (en : String → Bool) :
    ∀ (configs : List ViewConfig) (acc : MainState × List Msg),
      acc.1.enabledServices = en →
      ∀ d, d ∈ configs →
        VALID_PRELOADS.contains d.preload = true → fails d = true →
        (d.isContent = false ∨ en d.id = true) →
        Msg.logError ("[MainWindow] Failed to create view " ++ d.id)
          ∈ (configs.foldl (createViewsStep fails) acc).2 := by
  intro configs
  induction configs with
  | nil => intro acc _ d hd; cases hd
  | cons e rest ih =>
    intro acc hacc d hd hpre hfail hen
    rw [List.foldl_cons]
    rcases List.mem_cons.mp hd with hde | hd2
    · subst hde
      apply createViews_fold_msgs_mono
      have hskip : (d.isContent && !(acc.1.enabledServices d.id)) = false := by
        rcases hen with hd1 | hd1
        · rw [hd1]
          rfl
        · rw [hacc, hd1]
          simp
      simp only [createViewsStep, hpre, hskip, hfail, Bool.false_eq_true, if_false, if_true]
      exact List.mem_append_right _ (List.mem_singleton_self _)
    · exact ih (createViewsStep fails acc e)
        (by rw [createViewsStep_enabled, hacc]) d hd2 hpre hfail hen

/-- Claim C7: a creation failure for one config is caught and logged and
does not prevent the creation of the remaining sessions: any other
eligible non-failing config of the list still gets its view created, and
_createViews returns normally (it is a total function of the embedding,
so the startup sequence never aborts). -/
theorem createViews_failure_isolation (fails : ViewConfig → Bool) (s : MainState)
    (configs : List ViewConfig) (c d : ViewConfig)
    (hc : c ∈ configs) (hcpre : VALID_PRELOADS.contains c.preload = true)
    (hcok : fails c = false)
    (hcen : c.isContent = false ∨ s.enabledServices c.id = true)
    (hd : d ∈ configs) (hdpre : VALID_PRELOADS.contains d.preload = true)
    (hdfail : fails d = true)
    (hden : d.isContent = false ∨ s.enabledServices d.id = true) :
    c.id ∈ (createViews fails s configs).1.views ∧
    Msg.logError ("[MainWindow] Failed to create view " ++ d.id)
      ∈ (createViews fails s configs).2 :=
  ⟨createViews_member_created fails s.enabledServices configs (s, []) rfl c hc hcpre
     hcok hcen,
   createViews_failure_logged fails s.enabledServices configs (s, []) rfl d hd hdpre
     hdfail hden⟩

/-- Witness for C7: over the full configuration with every service
enabled and the drive creation failing, the tasks view is still created
and the drive failure is logged. -/
theorem createViews_failure_isolation_witness :
    "tasks" ∈ (createViews (fun c => c.id == "drive")
        (initialState (fun _ => true)) VIEW_CONFIG).1.views ∧
    Msg.logError ("[MainWindow] Failed to create view " ++ "drive")
      ∈ (createViews (fun c => c.id == "drive")
          (initialState (fun _ => true)) VIEW_CONFIG).2 :=
  createViews_failure_isolation (fun c => c.id == "drive")
    (initialState (fun _ => true)) VIEW_CONFIG
    ⟨"tasks", some "https://tasks.google.com/tasks", "preload-web.js", true⟩
    ⟨"drive", some "https://drive.google.com/drive/u/0/my-drive", "preload-web.js", true⟩
    (by decide) (by decide) (by decide) (Or.inr rfl)
    (by decide) (by decide) (by decide) (Or.inr rfl)

/-- An upsert stores exactly the given value under the given key. -/
theorem lookupCount_upsert_self (m : List (String × ℚ)) (k : String) (v : ℚ) :
    lookupCount (upsert m k v) k = some v := by
  unfold upsert
  split
  · exact lookupCount_setCount_self m k v (by assumption)
  · have hnone : m.find? (fun p => p.1 == k) = none := by
      rw [List.find?_eq_none]
      intro x hx hpx
      have hany : m.any (fun p => p.1 == k) = true := List.any_eq_true.mpr ⟨x, hx, hpx⟩
      exact absurd hany (by assumption)
    unfold lookupCount
    rw [List.find?_append, hnone]
    simp

/-- One zoom-changed event keeps the factor inside the closed interval
from 1/2 to 3 and moves by exactly one clamped step. -/
theorem zoomStep_bounds (z : ℚ) (d : ZoomDirection) (h1 : 1 / 2 ≤ z) (h2 : z ≤ 3) :
    1 / 2 ≤ zoomStep z d ∧ zoomStep z d ≤ 3 := by
  cases d
  · constructor
    · apply le_min
      · linarith
      · norm_num
    · exact min_le_right _ _
  · constructor
    · exact le_max_right _ _
    · apply max_le
      · linarith
      · norm_num

/-- Claim C10: over every sequence of zoom-change events starting from a
factor in the closed interval from 0.5 to 3.0 (the Electron default 1.0
or a previously clamped restored value), the live factor stays in that
interval; after any nonempty sequence, the zoomLevels entry of the
session equals the live factor and the updated map has been persisted to
the store by the last event (each event upserts and persists). -/
theorem zoom_bounded_and_persisted (id : String) (s : ZoomState) (ds : List ZoomDirection)
    (h0 : 1 / 2 ≤ s.current ∧ s.current ≤ 3) :
    (1 / 2 ≤ (runZoom id s ds).current ∧ (runZoom id s ds).current ≤ 3) ∧
    (ds ≠ [] →
      lookupCount (runZoom id s ds).zoomLevels id = some ((runZoom id s ds).current) ∧
      (runZoom id s ds).storeZoomLevels = (runZoom id s ds).zoomLevels) := by
  induction ds generalizing s with
  | nil => exact ⟨h0, fun hne => absurd rfl hne⟩
  | cons d rest ih =>
    have hstep : runZoom id s (d :: rest) = runZoom id (zoomChanged id s d) rest := rfl
    rw [hstep]
    have hb := zoomStep_bounds s.current d h0.1 h0.2
    have hrec := ih (zoomChanged id s d) hb
    refine ⟨hrec.1, ?_⟩
    intro _
    cases rest with
    | nil =>
      refine ⟨?_, rfl⟩
      exact lookupCount_upsert_self s.zoomLevels id (zoomStep s.current d)
    | cons e rest2 =>
      exact hrec.2 (by intro hc; cases hc)

/-- Witness for C10: from the default factor 1, two zoom-in events end
at 6/5, inside the interval, with the map entry and the persisted copy
agreeing. -/
theorem zoom_bounded_and_persisted_witness :
    (1 / 2 ≤ (runZoom "gmail" ⟨1, [], []⟩
        [ZoomDirection.zoomIn, ZoomDirection.zoomIn]).current ∧
      (runZoom "gmail" ⟨1, [], []⟩
        [ZoomDirection.zoomIn, ZoomDirection.zoomIn]).current ≤ 3) ∧
    ([ZoomDirection.zoomIn, ZoomDirection.zoomIn] ≠ ([] : List ZoomDirection) →
      lookupCount (runZoom "gmail" ⟨1, [], []⟩
          [ZoomDirection.zoomIn, ZoomDirection.zoomIn]).zoomLevels "gmail"
        = some ((runZoom "gmail" ⟨1, [], []⟩
            [ZoomDirection.zoomIn, ZoomDirection.zoomIn]).current) ∧
      (runZoom "gmail" ⟨1, [], []⟩
          [ZoomDirection.zoomIn, ZoomDirection.zoomIn]).storeZoomLevels
        = (runZoom "gmail" ⟨1, [], []⟩
            [ZoomDirection.zoomIn, ZoomDirection.zoomIn]).zoomLevels) :=
  zoom_bounded_and_persisted "gmail" ⟨1, [], []⟩
    [ZoomDirection.zoomIn, ZoomDirection.zoomIn] (by norm_num)
